import Mathlib

/-!
# Verification of the statistics aggregation engine of `nyanja/tracks`

Shallow embedding of `src/app/api/statistics/route.ts` (the `GET` handler's
aggregation logic) and proofs about it.

Modelling conventions:

* Instants are `Int` values: seconds on the local timeline; one day is
  86400 seconds (no DST in the model, matching a fixed-offset local zone).
* A calendar-date string `YYYY-MM-DD` is modelled by its day index (the
  number of days since the timeline origin).  String equality of two such
  dates is equality of day indices, `format(d, 'yyyy-MM-dd')` is
  `dayIndex d`, and parsing `date + 'T00:00:00'` yields the instant
  `86400 * date`.
* JS `Math.round` is `jsRound q = ⌊q + 1/2⌋` (round half toward +∞).
* Optional numeric fields (`duration`, `targetMinutes`) are `Option Int`;
  JS truthiness (`undefined` and `0` are falsy) is `numTruthy`, and
  `x || 0` is `numOr0`.
* `date-fns` `isWithinInterval` is inclusive on both endpoints;
  `isAfter a b || a.getTime() === b.getTime()` is `b < a ∨ a = b`.
* Fractional minutes are `ℚ` (JS numbers on these small integer-seconds
  inputs behave exactly).
-/

namespace Tracks

/-! ## TimeWindow resolver -/

def secondsPerDay : Int := 86400

/-- The calendar day containing instant `t` (models `format(t, 'yyyy-MM-dd')`). -/
def dayIndex (t : Int) : Int := Int.fdiv t secondsPerDay

/-- `date-fns` `startOfDay`: truncate to local midnight. -/
def startOfDay (t : Int) : Int := secondsPerDay * dayIndex t

/-- `date-fns` `startOfWeek` with the default locale (weeks start on Sunday);
day 3 of the timeline (1970-01-04) is a Sunday. -/
def startOfWeek (t : Int) : Int :=
  secondsPerDay * (dayIndex t - Int.emod (dayIndex t - 3) 7)

/-- Days since 1970-01-01 to Gregorian civil `(year, month, day)`
(standard civil-calendar conversion). -/
def civilFromDays (z : Int) : Int × Int × Int :=
  let z' := z + 719468
  let era := Int.fdiv z' 146097
  let doe := z' - era * 146097
  let yoe := Int.fdiv (doe - Int.fdiv doe 1460 + Int.fdiv doe 36524 - Int.fdiv doe 146096) 365
  let y := yoe + era * 400
  let doy := doe - (365 * yoe + Int.fdiv yoe 4 - Int.fdiv yoe 100)
  let mp := Int.fdiv (5 * doy + 2) 153
  let d := doy - Int.fdiv (153 * mp + 2) 5 + 1
  let m := mp + (if mp < 10 then 3 else -9)
  (if m ≤ 2 then y + 1 else y, m, d)

/-- Gregorian civil `(year, month, day)` to days since 1970-01-01. -/
def daysFromCivil (y m d : Int) : Int :=
  let y' := if m ≤ 2 then y - 1 else y
  let era := Int.fdiv y' 400
  let yoe := y' - era * 400
  let doy := Int.fdiv (153 * (m + (if 2 < m then -3 else 9)) + 2) 5 + d - 1
  let doe := yoe * 365 + Int.fdiv yoe 4 - Int.fdiv yoe 100 + doy
  era * 146097 + doe - 719468

/-- `date-fns` `startOfMonth`: midnight of the first of the month. -/
def startOfMonth (t : Int) : Int :=
  let c := civilFromDays (dayIndex t)
  secondsPerDay * daysFromCivil c.1 c.2.1 1

/-! ## Data model (`src/types/index.ts`, extended-schema variant) -/

structure Activity where
  id : String
  name : String
  category : String
  color : String
  isActive : Bool
  type : String
  resetPeriod : Option String
  goalType : Option String
  targetMinutes : Option Int
  goalIsActive : Bool
deriving Repr, DecidableEq

structure ActivitySession where
  id : String
  activityId : String
  startTime : Int
  endTime : Option Int
  duration : Option Int
  date : Int
  isRunning : Bool
deriving Repr, DecidableEq

structure DailyCheckbox where
  id : String
  activityId : String
  date : Int
  isChecked : Bool
deriving Repr, DecidableEq

structure DreamingSpanishEntry where
  date : Int
  userId : String
  timeSeconds : Int
deriving Repr, DecidableEq

structure DailyProgressEntry where
  date : Int
  totalMinutes : Int
deriving Repr, DecidableEq

structure BreakdownEntry where
  activityId : String
  activityName : String
  totalMinutes : Int
  percentage : Int
deriving Repr, DecidableEq

structure Statistics where
  totalTimeToday : Int
  totalTimeWeek : Int
  totalTimeMonth : Int
  streakDays : Nat
  completedGoalsToday : Nat
  dailyProgress : List DailyProgressEntry
  activityBreakdown : List BreakdownEntry
deriving Repr, DecidableEq

/-- The inputs the route reads: the collections fetched from `Database`,
the `activityId` query parameter, and the reference instant `now`. -/
structure StatsInput where
  activities : List Activity
  sessions : List ActivitySession
  checkboxes : List DailyCheckbox
  dreamingSpanishData : List DreamingSpanishEntry
  activityId : Option String
  now : Int
deriving Repr, DecidableEq

/-! ## Aggregator (`GET` of `src/app/api/statistics/route.ts`) -/

def spanishActivityId : String := "3f4f9a6f-fe2f-4b37-9dc6-74739c0c8a74"

/-- JS truthiness of an optional numeric field: `undefined` and `0` are falsy. -/
def numTruthy : Option Int → Bool
  | none => false
  | some d => d != 0

/-- JS `x || 0` on an optional numeric field. -/
def numOr0 : Option Int → Int
  | none => 0
  | some d => d

/-- JS `Math.round`. -/
def jsRound (q : ℚ) : Int := ⌊q + 1/2⌋

/-- `date-fns` `isWithinInterval`: inclusive on both endpoints. -/
def isWithinInterval (t fromT toT : Int) : Bool :=
  decide (fromT ≤ t) && decide (t ≤ toT)

/-- The membership test of `getTotalMinutes`: bounded windows use
`isWithinInterval`; open windows use `isAfter(t, fromDate) || t == fromDate`. -/
def inWindow (t fromDate : Int) (toDate : Option Int) : Bool :=
  match toDate with
  | some toT => isWithinInterval t fromDate toT
  | none => decide (fromDate < t) || decide (t = fromDate)

/-- Lines 24–27: restrict the session set when `activityId` is present. -/
def filteredSessions (input : StatsInput) : List ActivitySession :=
  match input.activityId with
  | none => input.sessions
  | some aid => input.sessions.filter (fun s => s.activityId == aid)

/-- Whether one session survives the activity filter (the predicate of
`filteredSessions`). -/
def sessionPassesFilter (input : StatsInput) (s : ActivitySession) : Bool :=
  match input.activityId with
  | none => true
  | some aid => s.activityId == aid

/-- Line 45 / 82 / 137 / 165: the external data contributes when there is no
filter or the filter is the Spanish activity. -/
def externalApplies (input : StatsInput) : Bool :=
  match input.activityId with
  | none => true
  | some aid => aid == spanishActivityId

/-- Lines 32–41: session minutes inside a window (seconds / 60). -/
def sessionMinutes (input : StatsInput) (fromDate : Int) (toDate : Option Int) : ℚ :=
  ((((filteredSessions input).filter (fun s =>
      numTruthy s.duration && inWindow s.startTime fromDate toDate)).map
    (fun s => numOr0 s.duration)).sum : Int) / 60

/-- Lines 44–55: external minutes inside a window; each entry's date parses
to local midnight, `86400 * e.date`. -/
def externalMinutes (input : StatsInput) (fromDate : Int) (toDate : Option Int) : ℚ :=
  if externalApplies input then
    (((input.dreamingSpanishData.filter (fun e =>
        inWindow (secondsPerDay * e.date) fromDate toDate)).map
      (fun e => e.timeSeconds)).sum : Int) / 60
  else 0

/-- Lines 30–58: `getTotalMinutes`. -/
def getTotalMinutes (input : StatsInput) (fromDate : Int) (toDate : Option Int) : ℚ :=
  sessionMinutes input fromDate toDate + externalMinutes input fromDate toDate

/-- Lines 68–84: does day `i` (counting back from today) have qualifying
activity (a completed session starting in its inclusive day interval, or an
external entry dated that day)? -/
def streakQualifies (input : StatsInput) (i : Nat) : Bool :=
  let today := startOfDay input.now
  let checkDate := today - secondsPerDay * (i : Int)
  let dayStart := startOfDay checkDate
  let dayEnd := dayStart + secondsPerDay
  let dateIdx := dayIndex checkDate
  let hasSessionActivity := (filteredSessions input).any (fun s =>
    numTruthy s.duration && isWithinInterval s.startTime dayStart dayEnd)
  let hasExternalActivity :=
    externalApplies input && input.dreamingSpanishData.any (fun e => e.date == dateIdx)
  hasSessionActivity || hasExternalActivity

/-- Lines 66–92: the streak loop.  `fuel` counts remaining iterations,
`i` the current day offset, `acc` the streak so far; a non-qualifying day
breaks the loop unless it is today (`i = 0`). -/
def streakGo (qual : Nat → Bool) : Nat → Nat → Nat → Nat
  | 0, _, acc => acc
  | fuel + 1, i, acc =>
    if qual i then streakGo qual fuel (i + 1) (acc + 1)
    else if 0 < i then acc
    else streakGo qual fuel (i + 1) acc

def streakDaysOf (input : StatsInput) : Nat :=
  streakGo (streakQualifies input) 365 0 0

/-- Lines 95–100: active daily goals (optionally restricted to the filter). -/
def todayGoals (input : StatsInput) : List Activity :=
  input.activities.filter (fun a =>
    if !a.goalIsActive || !numTruthy a.targetMinutes || a.goalType != some "daily" then
      false
    else
      match input.activityId with
      | some aid => a.id == aid
      | none => true)

/-- Lines 103–119: today's minutes credited to one goal activity — sessions
selected by `date` string equality (over the unfiltered session list, keyed
to the activity), plus today's external entries for the Spanish activity. -/
def goalMinutesToday (input : StatsInput) (a : Activity) : ℚ :=
  let todayIdx := dayIndex (startOfDay input.now)
  let goalSessions := input.sessions.filter (fun s =>
    s.activityId == a.id && s.date == todayIdx && numTruthy s.duration)
  let base : ℚ := (((goalSessions.map (fun s => numOr0 s.duration)).sum : Int) : ℚ) / 60
  if a.id == spanishActivityId then
    base + ((((input.dreamingSpanishData.filter (fun e => e.date == todayIdx)).map
      (fun e => e.timeSeconds)).sum : Int) : ℚ) / 60
  else base

/-- Lines 102–122: count of goals whose credited minutes reach the target. -/
def completedGoalsToday (input : StatsInput) : Nat :=
  ((todayGoals input).filter (fun a =>
    decide ((numOr0 a.targetMinutes : ℚ) ≤ goalMinutesToday input a))).length

/-- Spec-side restatement of the claim for `completedGoalsToday`: today's
minutes credited to an activity are the sum, over its sessions whose `date`
field string-equals today's date, of `duration`-or-0 minutes, plus today's
external-entries minutes when the activity is the designated external one. -/
def specGoalMinutesToday (input : StatsInput) (a : Activity) : ℚ :=
  ((input.sessions.filter (fun s =>
      s.activityId == a.id && s.date == dayIndex (startOfDay input.now))).map
    (fun s => ((numOr0 s.duration : Int) : ℚ) / 60)).sum +
  (if a.id == spanishActivityId then
    ((input.dreamingSpanishData.filter
        (fun e => e.date == dayIndex (startOfDay input.now))).map
      (fun e => ((e.timeSeconds : Int) : ℚ) / 60)).sum
   else 0)

/-- Spec-side restatement of the claim for `completedGoalsToday`: the number
of activities with an active daily goal and a set target (restricted to the
filtered activity when a filter is given) whose credited minutes reach the
target. -/
def specCompletedGoalsToday (input : StatsInput) : Nat :=
  (input.activities.filter (fun a =>
    a.goalIsActive && a.targetMinutes.isSome && (a.goalType == some "daily") &&
    (match input.activityId with | some aid => a.id == aid | none => true) &&
    decide ((numOr0 a.targetMinutes : ℚ) ≤ specGoalMinutesToday input a))).length

/-- Lines 131–145: one day's rounded total for the progress series
(sessions by `date` string equality, plus external entries for that date). -/
def dayTotalMinutes (input : StatsInput) (dateIdx : Int) : Int :=
  let dayMinutes : ℚ := ((((filteredSessions input).filter (fun s =>
      s.date == dateIdx && numTruthy s.duration)).map
    (fun s => numOr0 s.duration)).sum : Int) / 60
  let externalMin : ℚ :=
    if externalApplies input then
      (((input.dreamingSpanishData.filter (fun e => e.date == dateIdx)).map
        (fun e => e.timeSeconds)).sum : Int) / 60
    else 0
  jsRound (dayMinutes + externalMin)

/-- Lines 125–147: the 30-day progress series, oldest first
(`i = 29` down to `0`, re-indexed as `k = 29 - i`). -/
def dailyProgress (input : StatsInput) : List DailyProgressEntry :=
  (List.range 30).map (fun (k : Nat) =>
    let date := startOfDay input.now - secondsPerDay * (29 - (k : Int))
    { date := dayIndex date, totalMinutes := dayTotalMinutes input (dayIndex date) })

structure ActivityStat where
  name : String
  minutes : ℚ
deriving Repr, DecidableEq

/-- `Map.get`, on the insertion-ordered association list modelling a JS `Map`. -/
def mapGet : List (String × ActivityStat) → String → Option ActivityStat
  | [], _ => none
  | (k, v) :: rest, key => if k == key then some v else mapGet rest key

/-- `Map.set`: update in place, or append a new key at the end. -/
def mapSet : List (String × ActivityStat) → String → ActivityStat → List (String × ActivityStat)
  | [], key, v => [(key, v)]
  | (k, v') :: rest, key, v =>
    if k == key then (k, v) :: rest else (k, v') :: mapSet rest key v

/-- Lines 155–162: merge one session into the per-activity stats map;
sessions whose `activityId` matches no activity are dropped. -/
def addSessionStat (activities : List Activity)
    (stats : List (String × ActivityStat)) (s : ActivitySession) :
    List (String × ActivityStat) :=
  match activities.find? (fun a => a.id == s.activityId) with
  | none => stats
  | some a =>
    let current := (mapGet stats a.id).getD { name := a.name, minutes := 0 }
    mapSet stats a.id
      { name := current.name, minutes := current.minutes + (numOr0 s.duration : ℚ) / 60 }

/-- Lines 150–175: the per-activity stats map — all completed filtered
sessions, then the whole external total added to the Spanish bucket when its
activity record exists. -/
def activityStats (input : StatsInput) : List (String × ActivityStat) :=
  let base := ((filteredSessions input).filter (fun s => numTruthy s.duration)).foldl
    (addSessionStat input.activities) []
  if externalApplies input then
    match input.activities.find? (fun a => a.id == spanishActivityId) with
    | none => base
    | some a =>
      let externalTotalMinutes : ℚ :=
        ((input.dreamingSpanishData.map (fun e => e.timeSeconds)).sum : Int) / 60
      let current := (mapGet base spanishActivityId).getD { name := a.name, minutes := 0 }
      mapSet base spanishActivityId
        { name := current.name, minutes := current.minutes + externalTotalMinutes }
  else base

/-- Lines 177–178: cross-bucket total minutes (unrounded). -/
def breakdownTotalMinutes (input : StatsInput) : ℚ :=
  ((activityStats input).map (fun p => p.2.minutes)).sum

/-- Lines 180–185: the breakdown entries, rounded only at output. -/
def activityBreakdown (input : StatsInput) : List BreakdownEntry :=
  (activityStats input).map (fun p =>
    { activityId := p.1
      activityName := p.2.name
      totalMinutes := jsRound p.2.minutes
      percentage :=
        if 0 < breakdownTotalMinutes input then
          jsRound (p.2.minutes / breakdownTotalMinutes input * 100)
        else 0 })

/-- Lines 18–21 and 60–195: the whole aggregation. -/
def computeStatistics (input : StatsInput) : Statistics :=
  let today := startOfDay input.now
  { totalTimeToday := jsRound (getTotalMinutes input today (some (today + secondsPerDay)))
    totalTimeWeek := jsRound (getTotalMinutes input (startOfWeek today) none)
    totalTimeMonth := jsRound (getTotalMinutes input (startOfMonth today) none)
    streakDays := streakDaysOf input
    completedGoalsToday := completedGoalsToday input
    dailyProgress := dailyProgress input
    activityBreakdown := activityBreakdown input }

/-! ## Concrete inputs used in instances and counterexamples -/

/-- A time-tracking activity with an active 30-minute daily goal. -/
def actA : Activity :=
  { id := "A", name := "Act A", category := "Work", color := "#fff", isActive := true,
    type := "time-tracking", resetPeriod := none, goalType := some "daily",
    targetMinutes := some 30, goalIsActive := true }

/-- A completed 30-minute session of `actA` during day 100. -/
def sessA : ActivitySession :=
  { id := "s1", activityId := "A", startTime := 100 * secondsPerDay + 3600, endTime := none,
    duration := some 1800, date := 100, isRunning := false }

/-- Scenario input: one activity, one completed session today, `now` in day 100. -/
def scnGoal : StatsInput :=
  { activities := [actA], sessions := [sessA], checkboxes := [],
    dreamingSpanishData := [], activityId := none, now := 100 * secondsPerDay + 7200 }

/-- Replace a present-but-zero `duration` by an absent one. -/
def normDur (d : Option Int) : Option Int :=
  if d == some 0 then none else d

/-- The session with its `duration` normalised by `normDur`. -/
def normSession (s : ActivitySession) : ActivitySession :=
  { s with duration := normDur s.duration }

/-- A stopped session during day 99 whose recorded `duration` is `0`. -/
def zeroDurSession : ActivitySession :=
  { id := "s0", activityId := "A", startTime := 99 * secondsPerDay + 600, endTime := none,
    duration := some 0, date := 99, isRunning := false }

/-- A concrete input whose only records are a completed session today and a
`duration = 0` session yesterday. -/
def zeroDurInput : StatsInput :=
  { activities := [actA], sessions := [sessA, zeroDurSession], checkboxes := [],
    dreamingSpanishData := [], activityId := none, now := 100 * secondsPerDay + 7200 }

/-- A completed session during day 100 whose `activityId` matches no
activity record. -/
def orphanSession : ActivitySession :=
  { id := "og", activityId := "ghost", startTime := 100 * secondsPerDay + 3600, endTime := none,
    duration := some 600, date := 100, isRunning := false }

/-- A concrete input whose only session is the orphan session. -/
def orphanInput : StatsInput :=
  { activities := [actA], sessions := [orphanSession], checkboxes := [],
    dreamingSpanishData := [], activityId := none, now := 100 * secondsPerDay + 7200 }

/-- The input the route sees when every collection is empty. -/
def emptyInput (filt : Option String) (now : Int) : StatsInput :=
  { activities := [], sessions := [], checkboxes := [],
    dreamingSpanishData := [], activityId := filt, now := now }

/-- A checkbox-type activity with no sessions. -/
def actB : Activity :=
  { id := "B", name := "Act B", category := "Health", color := "#000", isActive := true,
    type := "checkbox", resetPeriod := some "daily", goalType := none,
    targetMinutes := none, goalIsActive := false }

/-- A concrete input where checkbox activity `B` is marked complete today but
has no sessions, while activity `A` has one completed session. -/
def checkboxInputW : StatsInput :=
  { activities := [actA, actB], sessions := [sessA],
    checkboxes := [{ id := "c1", activityId := "B", date := 100, isChecked := true }],
    dreamingSpanishData := [], activityId := none, now := 100 * secondsPerDay + 7200 }

/-- A concrete input whose only record is an external entry dated tomorrow
(day 101, `now` in day 100). -/
def externalTomorrowInput : StatsInput :=
  { activities := [], sessions := [], checkboxes := [],
    dreamingSpanishData := [{ date := 101, userId := "u", timeSeconds := 600 }],
    activityId := none, now := 100 * secondsPerDay + 7200 }

/-- A 10-minute session starting exactly at the midnight ending day 100. -/
def boundarySession : ActivitySession :=
  { id := "sb", activityId := "A", startTime := 101 * secondsPerDay, endTime := none,
    duration := some 600, date := 101, isRunning := false }

/-- A concrete input whose only session starts exactly at tomorrow's
midnight, `startOfDay(now) + 24h`. -/
def boundarySessionInput : StatsInput :=
  { activities := [], sessions := [boundarySession], checkboxes := [],
    dreamingSpanishData := [], activityId := none, now := 100 * secondsPerDay + 7200 }

/-- A concrete input with sessions yesterday and today and nothing on the
day before: a streak of 2. -/
def streakInputW : StatsInput :=
  { activities := [actA]
    sessions := [sessA,
      { id := "s2", activityId := "A", startTime := 99 * secondsPerDay + 600, endTime := none,
        duration := some 900, date := 99, isRunning := false }]
    checkboxes := [], dreamingSpanishData := [], activityId := none
    now := 100 * secondsPerDay + 7200 }

/-! ## General helper lemmas -/

theorem jsRound_zero : jsRound 0 = 0 := by
  unfold jsRound
  norm_num

theorem secondsPerDay_pos : (0 : Int) < secondsPerDay := by
  unfold secondsPerDay
  norm_num

theorem dayIndex_mul (d : Int) : dayIndex (secondsPerDay * d) = d := by
  unfold dayIndex
  exact Int.mul_fdiv_cancel_left d (by unfold secondsPerDay; norm_num)

theorem startOfDay_eq (t : Int) : startOfDay t = secondsPerDay * dayIndex t := rfl

theorem dayIndex_startOfDay (t : Int) : dayIndex (startOfDay t) = dayIndex t := by
  rw [startOfDay_eq, dayIndex_mul]

/-! ## Streak-loop lemmas -/

theorem streakGo_qual (qual : Nat → Bool) (fuel i acc : Nat) (h : qual i = true) :
    streakGo qual (fuel + 1) i acc = streakGo qual fuel (i + 1) (acc + 1) := by
  simp [streakGo, h]

theorem streakGo_break (qual : Nat → Bool) (fuel i acc : Nat) (h : qual i = false)
    (hi : 0 < i) : streakGo qual (fuel + 1) i acc = acc := by
  simp [streakGo, h, hi]

theorem streakGo_skip_today (qual : Nat → Bool) (fuel acc : Nat) (h : qual 0 = false) :
    streakGo qual (fuel + 1) 0 acc = streakGo qual fuel 1 acc := by
  simp [streakGo, h]

theorem streakGo_le (qual : Nat → Bool) :
    ∀ (fuel i acc : Nat), streakGo qual fuel i acc ≤ acc + fuel := by
  intro fuel
  induction fuel with
  | zero => intro i acc; simp [streakGo]
  | succ n ih =>
    intro i acc
    by_cases h : qual i = true
    · rw [streakGo_qual qual n i acc h]
      calc streakGo qual n (i + 1) (acc + 1) ≤ acc + 1 + n := ih (i + 1) (acc + 1)
        _ = acc + (n + 1) := by omega
    · rw [Bool.not_eq_true] at h
      by_cases hi : 0 < i
      · rw [streakGo_break qual n i acc h hi]; omega
      · have hi0 : i = 0 := by omega
        subst hi0
        rw [streakGo_skip_today qual n acc h]
        calc streakGo qual n 1 acc ≤ acc + n := ih 1 acc
          _ ≤ acc + (n + 1) := by omega

theorem computeStatistics_streakDays (input : StatsInput) :
    (computeStatistics input).streakDays = streakDaysOf input := rfl

/-! ## C1 — streak scenarios -/

/-- C1: the streak scan is capped at 365 days; a qualifying today and
yesterday followed by a non-qualifying day give a streak of 2; a
non-qualifying today followed by two qualifying days and a non-qualifying
day also give 2 (today's gap does not break the streak); and if no day of
the last 365 qualifies the streak is 0. -/
theorem streak_scenarios (input : StatsInput) :
    ((computeStatistics input).streakDays ≤ 365) ∧
    (streakQualifies input 0 = true → streakQualifies input 1 = true →
      streakQualifies input 2 = false → (computeStatistics input).streakDays = 2) ∧
    (streakQualifies input 0 = false → streakQualifies input 1 = true →
      streakQualifies input 2 = true → streakQualifies input 3 = false →
      (computeStatistics input).streakDays = 2) ∧
    ((∀ i, i < 365 → streakQualifies input i = false) →
      (computeStatistics input).streakDays = 0) := by
  rw [computeStatistics_streakDays]
  unfold streakDaysOf
  refine ⟨?_, ?_, ?_, ?_⟩
  · exact streakGo_le (streakQualifies input) 365 0 0
  · intro h0 h1 h2
    rw [show (365 : Nat) = 364 + 1 from rfl, streakGo_qual _ _ _ _ h0,
      show (364 : Nat) = 363 + 1 from rfl, streakGo_qual _ _ _ _ h1,
      show (363 : Nat) = 362 + 1 from rfl, streakGo_break _ _ _ _ h2 (by omega)]
  · intro h0 h1 h2 h3
    rw [show (365 : Nat) = 364 + 1 from rfl, streakGo_skip_today _ _ _ h0,
      show (364 : Nat) = 363 + 1 from rfl, streakGo_qual _ _ _ _ h1,
      show (363 : Nat) = 362 + 1 from rfl, streakGo_qual _ _ _ _ h2,
      show (362 : Nat) = 361 + 1 from rfl, streakGo_break _ _ _ _ h3 (by omega)]
  · intro hall
    rw [show (365 : Nat) = 364 + 1 from rfl, streakGo_skip_today _ _ _ (hall 0 (by omega)),
      show (364 : Nat) = 363 + 1 from rfl,
      streakGo_break _ _ _ _ (hall 1 (by omega)) (by omega)]

theorem streak_scenarios_witness : (computeStatistics streakInputW).streakDays = 2 :=
  (streak_scenarios streakInputW).2.1 (by with_unfolding_all decide)
    (by with_unfolding_all decide) (by with_unfolding_all decide)

/-! ## C7 — empty input -/

/-- C7: with all collections empty the aggregator yields all-zero totals, a
zero streak, zero completed goals, a 30-entry all-zero progress series and an
empty breakdown, for every reference instant and filter. -/
theorem empty_input_statistics (filt : Option String) (now : Int) :
    (computeStatistics (emptyInput filt now)).totalTimeToday = 0 ∧
    (computeStatistics (emptyInput filt now)).totalTimeWeek = 0 ∧
    (computeStatistics (emptyInput filt now)).totalTimeMonth = 0 ∧
    (computeStatistics (emptyInput filt now)).streakDays = 0 ∧
    (computeStatistics (emptyInput filt now)).completedGoalsToday = 0 ∧
    (computeStatistics (emptyInput filt now)).dailyProgress.length = 30 ∧
    (∀ e ∈ (computeStatistics (emptyInput filt now)).dailyProgress, e.totalMinutes = 0) ∧
    (computeStatistics (emptyInput filt now)).activityBreakdown = [] := by
  have hfs : filteredSessions (StatsInput.mk [] [] [] [] filt now) = [] := by
    cases filt <;> rfl
  have hsm : ∀ f t, sessionMinutes (emptyInput filt now) f t = 0 := by
    intro f t
    simp [sessionMinutes, emptyInput, hfs]
  have hem : ∀ f t, externalMinutes (emptyInput filt now) f t = 0 := by
    intro f t
    simp [externalMinutes, emptyInput]
  have htot : ∀ f t, getTotalMinutes (emptyInput filt now) f t = 0 := by
    intro f t
    simp [getTotalMinutes, hsm, hem]
  have hqual : ∀ i, streakQualifies (emptyInput filt now) i = false := by
    intro i
    simp [streakQualifies, emptyInput, hfs]
  have hday : ∀ d, dayTotalMinutes (emptyInput filt now) d = 0 := by
    intro d
    simp [dayTotalMinutes, emptyInput, hfs, jsRound_zero]
  refine ⟨?_, ?_, ?_, ?_, ?_, ?_, ?_, ?_⟩
  · simp [computeStatistics, htot, jsRound_zero]
  · simp [computeStatistics, htot, jsRound_zero]
  · simp [computeStatistics, htot, jsRound_zero]
  · rw [computeStatistics_streakDays]
    unfold streakDaysOf
    rw [show (365 : Nat) = 364 + 1 from rfl, streakGo_skip_today _ _ _ (hqual 0),
      show (364 : Nat) = 363 + 1 from rfl, streakGo_break _ _ _ _ (hqual 1) (by omega)]
  · simp [computeStatistics, completedGoalsToday, todayGoals, emptyInput]
  · show (dailyProgress (emptyInput filt now)).length = 30
    rw [dailyProgress, List.length_map, List.length_range]
  · intro e he
    have he' : e ∈ dailyProgress (emptyInput filt now) := he
    rw [dailyProgress] at he'
    simp only [List.mem_map] at he'
    obtain ⟨k, _, hk⟩ := he'
    rw [← hk]
    exact hday _
  · show activityBreakdown (emptyInput filt now) = []
    rw [activityBreakdown]
    have hstats : activityStats (emptyInput filt now) = [] := by
      simp [activityStats, emptyInput, hfs, List.find?]
    rw [hstats]
    rfl

/-! ## C8 — checkboxes never contribute -/

/-- C8: the checkbox collection never influences the computed statistics —
two inputs differing only in `checkboxes` yield the same `Statistics` — and
in a concrete input where checkbox activity `B` is marked complete today but
has no sessions, the breakdown has an entry only for activity `A`. -/
theorem checkboxes_noninterference :
    (∀ (input : StatsInput) (cb : List DailyCheckbox),
      computeStatistics { input with checkboxes := cb } = computeStatistics input) ∧
    (checkboxInputW.checkboxes.any (fun c => c.activityId == "B" && c.isChecked) = true) ∧
    ((computeStatistics checkboxInputW).activityBreakdown.map (fun e => e.activityId) = ["A"]) := by
  refine ⟨?_, ?_, ?_⟩
  · intro input cb
    cases input
    rfl
  · with_unfolding_all decide
  · with_unfolding_all decide

/-! ## C4 — daily-progress shape -/

theorem dayIndex_startOfDay_sub (t x : Int) :
    dayIndex (startOfDay t - secondsPerDay * x) = dayIndex t - x := by
  rw [startOfDay_eq]
  have h : secondsPerDay * dayIndex t - secondsPerDay * x = secondsPerDay * (dayIndex t - x) := by
    ring
  rw [h, dayIndex_mul]

/-- C4: the progress series always has exactly 30 entries; entry `j` carries
the calendar date `dayIndex now - 29 + j` (dates strictly increase by one
day and the last is today's date); and a day with no matching session and no
matching external entry totals 0. -/
theorem daily_progress_shape (input : StatsInput) :
    ((computeStatistics input).dailyProgress.length = 30) ∧
    (∀ j : Nat, j < 30 → (computeStatistics input).dailyProgress.get? j =
      some { date := dayIndex input.now - 29 + (j : Int),
             totalMinutes := dayTotalMinutes input (dayIndex input.now - 29 + (j : Int)) }) ∧
    (∀ d : Int,
      (∀ s ∈ filteredSessions input, (s.date == d && numTruthy s.duration) = false) →
      (∀ e ∈ input.dreamingSpanishData, (e.date == d) = false) →
      dayTotalMinutes input d = 0) := by
  refine ⟨?_, ?_, ?_⟩
  · show (dailyProgress input).length = 30
    rw [dailyProgress, List.length_map, List.length_range]
  · intro j hj
    show (dailyProgress input).get? j = _
    have hdi : dayIndex (startOfDay input.now - secondsPerDay * (29 - (j : Int))) =
        dayIndex input.now - 29 + (j : Int) := by
      rw [dayIndex_startOfDay_sub]
      ring
    rw [dailyProgress, List.get?_map, List.get?_range hj]
    simp only [Option.map_some']
    rw [hdi]
  · intro d h1 h2
    have hf1 : (filteredSessions input).filter
        (fun s => s.date == d && numTruthy s.duration) = [] := by
      rw [List.filter_eq_nil]
      intro a ha
      simp [h1 a ha]
    have hf2 : input.dreamingSpanishData.filter (fun e => e.date == d) = [] := by
      rw [List.filter_eq_nil]
      intro a ha
      simp [h2 a ha]
    simp [dayTotalMinutes, hf1, hf2, jsRound_zero]

/-- Witness for C4: the last entry of the concrete scenario input carries
today's calendar date. -/
theorem daily_progress_shape_witness :
    (computeStatistics scnGoal).dailyProgress.get? 29 =
      some { date := dayIndex scnGoal.now - 29 + (29 : Int),
             totalMinutes := dayTotalMinutes scnGoal (dayIndex scnGoal.now - 29 + (29 : Int)) } :=
  (daily_progress_shape scnGoal).2.1 29 (by norm_num)

/-! ## C2 — external-entry selection in `getTotalMinutes` -/

/-- C2 counterexample: an external entry dated tomorrow — a date naming no
day of the today window — still contributes to `totalTimeToday`, because
`getTotalMinutes` parses the date to an instant and the interval is
end-inclusive.  With no sessions at all, `totalTimeToday` is 10. -/
theorem external_instant_containment_cex :
    externalTomorrowInput.sessions = [] ∧
    (externalTomorrowInput.dreamingSpanishData.all
      (fun e => !(e.date == dayIndex externalTomorrowInput.now))) = true ∧
    (computeStatistics externalTomorrowInput).totalTimeToday = 10 := by
  refine ⟨rfl, by with_unfolding_all decide, by with_unfolding_all decide⟩

theorem int_beq_eq_decide (a b : Int) : (a == b) = decide (a = b) := by
  by_cases h : a = b <;> simp [h]

theorem inWindow_none_aligned (d W : Int) :
    inWindow (secondsPerDay * d) (secondsPerDay * W) none = decide (W ≤ d) := by
  unfold inWindow
  rw [← Bool.decide_or]
  rw [decide_eq_decide]
  have hsp : (0 : Int) < secondsPerDay := secondsPerDay_pos
  constructor
  · rintro (h | h)
    · exact le_of_lt ((mul_lt_mul_left hsp).mp h)
    · exact le_of_eq (mul_left_cancel₀ (ne_of_gt hsp) h).symm
  · intro h
    rcases lt_or_eq_of_le h with h' | h'
    · exact Or.inl ((mul_lt_mul_left hsp).mpr h')
    · exact Or.inr (by rw [h'])

theorem inWindow_some_aligned (d D : Int) :
    inWindow (secondsPerDay * d) (secondsPerDay * D)
        (some (secondsPerDay * D + secondsPerDay)) =
      (d == D || d == D + 1) := by
  simp only [inWindow, isWithinInterval]
  rw [int_beq_eq_decide, int_beq_eq_decide, ← Bool.decide_and, ← Bool.decide_or, decide_eq_decide]
  have hsp : (0 : Int) < secondsPerDay := secondsPerDay_pos
  constructor
  · rintro ⟨h1, h2⟩
    have hl : D ≤ d := (mul_le_mul_left hsp).mp h1
    have hr : d ≤ D + 1 := by
      have : secondsPerDay * d ≤ secondsPerDay * (D + 1) := by
        calc secondsPerDay * d ≤ secondsPerDay * D + secondsPerDay := h2
          _ = secondsPerDay * (D + 1) := by ring
      exact (mul_le_mul_left hsp).mp this
    omega
  · rintro (h | h) <;> subst h
    · exact ⟨le_refl _, by nlinarith⟩
    · constructor <;> nlinarith

/-- C2 amended: the external contribution of `getTotalMinutes` is selected
by parsing each entry's date to its local midnight and testing instant
containment.  For the open-ended (week / month) windows, whose start is a
day boundary `secondsPerDay * W`, this coincides with calendar selection
`W ≤ date`; for the bounded today window the inclusive end additionally
admits entries dated tomorrow. -/
theorem external_selection_windows (input : StatsInput) :
    (∀ W : Int, externalMinutes input (secondsPerDay * W) none =
      if externalApplies input then
        ((((input.dreamingSpanishData.filter (fun e => decide (W ≤ e.date))).map
          (fun e => e.timeSeconds)).sum : Int) : ℚ) / 60
      else 0) ∧
    (externalMinutes input (startOfDay input.now)
        (some (startOfDay input.now + secondsPerDay)) =
      if externalApplies input then
        ((((input.dreamingSpanishData.filter (fun e =>
            e.date == dayIndex input.now || e.date == dayIndex input.now + 1)).map
          (fun e => e.timeSeconds)).sum : Int) : ℚ) / 60
      else 0) := by
  constructor
  · intro W
    unfold externalMinutes
    have hfeq : input.dreamingSpanishData.filter
          (fun e => inWindow (secondsPerDay * e.date) (secondsPerDay * W) none) =
        input.dreamingSpanishData.filter (fun e => decide (W ≤ e.date)) := by
      apply List.filter_congr
      intro e _
      exact inWindow_none_aligned e.date W
    rw [hfeq]
  · unfold externalMinutes
    rw [startOfDay_eq]
    have hfeq : input.dreamingSpanishData.filter
          (fun e => inWindow (secondsPerDay * e.date) (secondsPerDay * dayIndex input.now)
            (some (secondsPerDay * dayIndex input.now + secondsPerDay))) =
        input.dreamingSpanishData.filter (fun e =>
          e.date == dayIndex input.now || e.date == dayIndex input.now + 1) := by
      apply List.filter_congr
      intro e _
      exact inWindow_some_aligned e.date (dayIndex input.now)
    rw [hfeq]

/-! ## C3 — today-window membership for sessions -/

/-- C3 counterexample: the interval test of `totalTimeToday` is
end-inclusive.  A session starting exactly at `startOfDay(now) + 24h` — and
therefore outside the half-open window `[startOfDay(now), +24h)` — is
counted: with no other record, `totalTimeToday` is 10, not 0. -/
theorem today_halfopen_cex :
    boundarySessionInput.dreamingSpanishData = [] ∧
    (boundarySessionInput.sessions.all (fun s =>
      !(decide (startOfDay boundarySessionInput.now ≤ s.startTime) &&
        decide (s.startTime < startOfDay boundarySessionInput.now + secondsPerDay)))) = true ∧
    (computeStatistics boundarySessionInput).totalTimeToday = 10 := by
  refine ⟨rfl, by with_unfolding_all decide, by with_unfolding_all decide⟩

/-- C3 amended: `totalTimeToday` is the rounded value of `getTotalMinutes`
over the today window, and a session is counted exactly when its `duration`
is present (truthy) and its `startTime` lies in the CLOSED interval
`[startOfDay(now), startOfDay(now) + 24h]` — both endpoints included; a
session with `duration` unset contributes 0 regardless of `startTime`. -/
theorem totalTimeToday_closed_interval (input : StatsInput) (s : ActivitySession)
    (hf : sessionPassesFilter input s = true) :
    ((computeStatistics input).totalTimeToday =
      jsRound (getTotalMinutes input (startOfDay input.now)
        (some (startOfDay input.now + secondsPerDay)))) ∧
    (getTotalMinutes { input with sessions := s :: input.sessions }
        (startOfDay input.now) (some (startOfDay input.now + secondsPerDay)) =
      getTotalMinutes input (startOfDay input.now)
          (some (startOfDay input.now + secondsPerDay)) +
        (if numTruthy s.duration = true ∧ startOfDay input.now ≤ s.startTime ∧
            s.startTime ≤ startOfDay input.now + secondsPerDay
          then ((numOr0 s.duration : Int) : ℚ) / 60 else 0)) := by
  obtain ⟨acts, sess, cbs, ext, fid, n⟩ := input
  constructor
  · rfl
  · set input := StatsInput.mk acts sess cbs ext fid n with hinput
    have hcons : filteredSessions { input with sessions := s :: input.sessions } =
        s :: filteredSessions input := by
      rw [hinput]
      unfold filteredSessions sessionPassesFilter at *
      cases fid with
      | none => rfl
      | some aid =>
        simp only at hf ⊢
        rw [List.filter_cons, hf]
        simp
    have hext : externalMinutes { input with sessions := s :: input.sessions } =
        externalMinutes input := by
      rw [hinput]
      unfold externalMinutes externalApplies
      rfl
    unfold getTotalMinutes
    rw [hext]
    unfold sessionMinutes
    rw [hcons, List.filter_cons]
    by_cases hp : (numTruthy s.duration &&
        inWindow s.startTime (startOfDay input.now)
          (some (startOfDay input.now + secondsPerDay))) = true
    · rw [if_pos hp]
      have hcond : numTruthy s.duration = true ∧ startOfDay input.now ≤ s.startTime ∧
          s.startTime ≤ startOfDay input.now + secondsPerDay := by
        have := hp
        unfold inWindow isWithinInterval at this
        simp only [Bool.and_eq_true, decide_eq_true_eq] at this
        exact ⟨this.1, this.2.1, this.2.2⟩
      rw [if_pos hcond]
      simp only [List.map_cons, List.sum_cons]
      push_cast
      ring
    · rw [if_neg hp]
      have hcond : ¬(numTruthy s.duration = true ∧ startOfDay input.now ≤ s.startTime ∧
          s.startTime ≤ startOfDay input.now + secondsPerDay) := by
        intro hc
        apply hp
        unfold inWindow isWithinInterval
        simp only [Bool.and_eq_true, decide_eq_true_eq]
        exact ⟨hc.1, hc.2.1, hc.2.2⟩
      rw [if_neg hcond]
      ring

/-- Witness for C3's amended theorem: applied to the concrete scenario input
and the boundary session. -/
theorem totalTimeToday_closed_interval_witness :
    ((computeStatistics scnGoal).totalTimeToday =
      jsRound (getTotalMinutes scnGoal (startOfDay scnGoal.now)
        (some (startOfDay scnGoal.now + secondsPerDay)))) ∧
    (getTotalMinutes { scnGoal with sessions := sessA :: scnGoal.sessions }
        (startOfDay scnGoal.now) (some (startOfDay scnGoal.now + secondsPerDay)) =
      getTotalMinutes scnGoal (startOfDay scnGoal.now)
          (some (startOfDay scnGoal.now + secondsPerDay)) +
        (if numTruthy sessA.duration = true ∧ startOfDay scnGoal.now ≤ sessA.startTime ∧
            sessA.startTime ≤ startOfDay scnGoal.now + secondsPerDay
          then ((numOr0 sessA.duration : Int) : ℚ) / 60 else 0)) :=
  totalTimeToday_closed_interval scnGoal sessA (by with_unfolding_all decide)

/-! ## C5 — breakdown percentages -/

theorem jsRound_abs_le (q : ℚ) : |(jsRound q : ℚ) - q| ≤ 1/2 := by
  unfold jsRound
  rw [abs_le]
  constructor
  · have h := Int.sub_one_lt_floor (q + 1/2)
    linarith
  · have h := Int.floor_le (q + 1/2)
    linarith

theorem sum_jsRound_abs_le (l : List ℚ) :
    |(((l.map jsRound).sum : Int) : ℚ) - l.sum| ≤ (l.length : ℚ) / 2 := by
  induction l with
  | nil => simp
  | cons q t ih =>
    simp only [List.map_cons, List.sum_cons, List.length_cons, Int.cast_add,
      Nat.cast_add, Nat.cast_one]
    have h1 := jsRound_abs_le q
    calc |((jsRound q : ℚ) + (((t.map jsRound).sum : Int) : ℚ)) - (q + t.sum)|
        = |((jsRound q : ℚ) - q) + ((((t.map jsRound).sum : Int) : ℚ) - t.sum)| := by
          ring_nf
      _ ≤ |(jsRound q : ℚ) - q| + |(((t.map jsRound).sum : Int) : ℚ) - t.sum| := abs_add _ _
      _ ≤ 1/2 + (t.length : ℚ)/2 := add_le_add h1 ih
      _ = ((t.length : ℚ) + 1)/2 := by ring

theorem sum_map_mul_const (l : List ℚ) (c : ℚ) :
    (l.map (fun m => m * c)).sum = l.sum * c := by
  induction l with
  | nil => simp
  | cons q t ih =>
    simp only [List.map_cons, List.sum_cons, ih]
    ring

theorem sum_map_div_sum_mul (ms : List ℚ) (h : ms.sum ≠ 0) :
    (ms.map (fun m => m / ms.sum * 100)).sum = 100 := by
  have h2 : (fun m => m / ms.sum * 100) = fun m => m * (100 / ms.sum) := by
    funext m
    ring
  rw [h2, sum_map_mul_const]
  field_simp

/-- C5: each breakdown entry's percentage is
`round(bucketMinutes / totalMinutes * 100)` when the cross-bucket total is
positive and `0` otherwise; and when the total is positive the percentages
sum to 100 within ±1 per entry. -/
theorem breakdown_percentage_sum (input : StatsInput) :
    ((computeStatistics input).activityBreakdown.map (fun e => e.percentage) =
      (activityStats input).map (fun p =>
        if 0 < breakdownTotalMinutes input then
          jsRound (p.2.minutes / breakdownTotalMinutes input * 100)
        else 0)) ∧
    (0 < breakdownTotalMinutes input →
      |(((computeStatistics input).activityBreakdown.map (fun e => e.percentage)).sum : Int) - 100|
        ≤ ((computeStatistics input).activityBreakdown.length : Int)) := by
  have hpart1 : (computeStatistics input).activityBreakdown.map (fun e => e.percentage) =
      (activityStats input).map (fun p =>
        if 0 < breakdownTotalMinutes input then
          jsRound (p.2.minutes / breakdownTotalMinutes input * 100)
        else 0) := by
    show (activityBreakdown input).map (fun e => e.percentage) = _
    rw [activityBreakdown, List.map_map]
    rfl
  refine ⟨hpart1, ?_⟩
  intro hT
  have hTne : breakdownTotalMinutes input ≠ 0 := ne_of_gt hT
  have hmap : (computeStatistics input).activityBreakdown.map (fun e => e.percentage) =
      ((activityStats input).map
        (fun p => p.2.minutes / breakdownTotalMinutes input * 100)).map jsRound := by
    rw [hpart1, List.map_map]
    apply List.map_congr_left
    intro p _
    simp [Function.comp, if_pos hT]
  have hlen : (computeStatistics input).activityBreakdown.length =
      (activityStats input).length := by
    show (activityBreakdown input).length = _
    rw [activityBreakdown, List.length_map]
  have hms : ((activityStats input).map
        (fun p => p.2.minutes / breakdownTotalMinutes input * 100)) =
      ((activityStats input).map (fun p => p.2.minutes)).map
        (fun m => m / breakdownTotalMinutes input * 100) := by
    rw [List.map_map]
    rfl
  have hsum : ((activityStats input).map
      (fun p => p.2.minutes / breakdownTotalMinutes input * 100)).sum = 100 := by
    rw [hms]
    exact sum_map_div_sum_mul _ hTne
  have habs := sum_jsRound_abs_le
    ((activityStats input).map (fun p => p.2.minutes / breakdownTotalMinutes input * 100))
  rw [hsum] at habs
  rw [hmap, hlen]
  have hlen2 : ((activityStats input).map
      (fun p => p.2.minutes / breakdownTotalMinutes input * 100)).length =
      (activityStats input).length := List.length_map _ _
  rw [hlen2] at habs
  have hfin : |(((((activityStats input).map
        (fun p => p.2.minutes / breakdownTotalMinutes input * 100)).map jsRound).sum : Int) : ℚ)
      - 100| ≤ ((activityStats input).length : ℚ) := by
    refine le_trans habs ?_
    have : (0 : ℚ) ≤ ((activityStats input).length : ℚ) := Nat.cast_nonneg _
    linarith
  exact_mod_cast hfin

/-- Witness for C5: the concrete scenario input has positive cross-bucket
total, and its percentages sum to 100 within the per-entry tolerance. -/
theorem breakdown_percentage_sum_witness :
    |(((computeStatistics scnGoal).activityBreakdown.map (fun e => e.percentage)).sum : Int) - 100|
      ≤ ((computeStatistics scnGoal).activityBreakdown.length : Int) :=
  (breakdown_percentage_sum scnGoal).2 (by
    have h : breakdownTotalMinutes scnGoal = 30 := by with_unfolding_all rfl
    rw [h]
    norm_num)

/-! ## C6 — completed goals today -/

theorem numOr0_eq_zero_of_not_truthy (d : Option Int) (h : numTruthy d = false) :
    numOr0 d = 0 := by
  cases d with
  | none => rfl
  | some x =>
    simp [numTruthy] at h
    simp [numOr0, h]

theorem sum_numOr0_filter (l : List ActivitySession) (p q : ActivitySession → Bool)
    (hq : ∀ s, q s = (p s && numTruthy s.duration)) :
    ((l.filter q).map (fun s => numOr0 s.duration)).sum =
    ((l.filter p).map (fun s => numOr0 s.duration)).sum := by
  induction l with
  | nil => rfl
  | cons s t ih =>
    rw [List.filter_cons, List.filter_cons, hq s]
    by_cases hp : p s = true
    · by_cases hd : numTruthy s.duration = true
      · simp only [hp, hd, Bool.and_self, if_pos, List.map_cons, List.sum_cons, ih]
      · rw [Bool.not_eq_true] at hd
        have h0 := numOr0_eq_zero_of_not_truthy s.duration hd
        simp only [hp, hd, Bool.and_false, Bool.true_and, if_neg, List.map_cons,
          List.sum_cons, ih, h0, Bool.false_eq_true, if_false, zero_add]
        simp [h0, ih]
    · rw [Bool.not_eq_true] at hp
      simp [hp, ih]

theorem cast_sum_div60 (l : List ActivitySession) :
    (((l.map (fun s => numOr0 s.duration)).sum : Int) : ℚ) / 60 =
    (l.map (fun s => ((numOr0 s.duration : Int) : ℚ) / 60)).sum := by
  induction l with
  | nil => simp
  | cons s t ih =>
    simp only [List.map_cons, List.sum_cons, Int.cast_add, add_div, ih]

theorem cast_sum_div60_ext (l : List DreamingSpanishEntry) :
    (((l.map (fun e => e.timeSeconds)).sum : Int) : ℚ) / 60 =
    (l.map (fun e => ((e.timeSeconds : Int) : ℚ) / 60)).sum := by
  induction l with
  | nil => simp
  | cons e t ih =>
    simp only [List.map_cons, List.sum_cons, Int.cast_add, add_div, ih]

theorem goalMinutes_eq_spec (input : StatsInput) (a : Activity) :
    goalMinutesToday input a = specGoalMinutesToday input a := by
  unfold goalMinutesToday specGoalMinutesToday
  have hsess : (((input.sessions.filter (fun s =>
      s.activityId == a.id && s.date == dayIndex (startOfDay input.now) &&
        numTruthy s.duration)).map (fun s => numOr0 s.duration)).sum : Int) =
      (((input.sessions.filter (fun s =>
        s.activityId == a.id && s.date == dayIndex (startOfDay input.now))).map
        (fun s => numOr0 s.duration)).sum : Int) := by
    exact sum_numOr0_filter input.sessions
      (fun s => s.activityId == a.id && s.date == dayIndex (startOfDay input.now))
      (fun s => s.activityId == a.id && s.date == dayIndex (startOfDay input.now) &&
        numTruthy s.duration)
      (fun s => rfl)
  by_cases hsp : (a.id == spanishActivityId) = true
  · rw [if_pos hsp, if_pos hsp, hsess, cast_sum_div60, cast_sum_div60_ext]
  · rw [Bool.not_eq_true] at hsp
    rw [hsp]
    simp only [Bool.false_eq_true, if_false]
    rw [hsess, cast_sum_div60]
    ring

/-- C6: `completedGoalsToday` equals the spec-side count — activities with an
active daily goal and a set target (under the data-model invariant that a set
target is nonzero), restricted by the filter, whose today-session minutes
(selected by `date` string equality) plus designated external minutes reach
the target — and in the concrete scenario (30-minute daily goal, one
completed 1800-second session today) it is 1 while `totalTimeToday` is 30. -/
theorem completed_goals_today_spec (input : StatsInput)
    (hpos : ∀ a ∈ input.activities, a.targetMinutes ≠ some 0) :
    ((computeStatistics input).completedGoalsToday = specCompletedGoalsToday input) ∧
    ((computeStatistics scnGoal).completedGoalsToday = 1 ∧
      (computeStatistics scnGoal).totalTimeToday = 30) := by
  refine ⟨?_, by with_unfolding_all decide, by with_unfolding_all decide⟩
  show completedGoalsToday input = specCompletedGoalsToday input
  unfold completedGoalsToday specCompletedGoalsToday todayGoals
  rw [List.filter_filter]
  congr 1
  apply List.filter_congr
  intro a ha
  have htm : a.targetMinutes ≠ some 0 := hpos a ha
  have hgm : goalMinutesToday input a = specGoalMinutesToday input a :=
    goalMinutes_eq_spec input a
  have htruthy : numTruthy a.targetMinutes = a.targetMinutes.isSome := by
    cases hd : a.targetMinutes with
    | none => rfl
    | some x =>
      have hx : x ≠ 0 := by
        intro h0
        exact htm (by rw [hd, h0])
      simp [numTruthy, hx]
  by_cases hga : a.goalIsActive = true
  · by_cases hts : numTruthy a.targetMinutes = true
    · by_cases hgt : (a.goalType == some "daily") = true
      · have hdne : (a.goalType != some "daily") = false := by
          simp [bne, hgt]
        simp only [hga, hts, hgt, hdne, ← htruthy, hgm, Bool.not_true, Bool.not_false,
          Bool.false_or, Bool.or_false, Bool.true_and, Bool.and_true]
        cases input.activityId <;>
          simp [Bool.and_comm, Bool.and_left_comm, Bool.and_assoc]
      · have hdne : (a.goalType != some "daily") = true := by
          simp only [bne]
          rw [Bool.not_eq_true] at hgt
          simp [hgt]
        rw [Bool.not_eq_true] at hgt
        simp [hga, hts, hdne, hgt, ← htruthy]
    · rw [Bool.not_eq_true] at hts
      simp [hga, hts, ← htruthy]
  · rw [Bool.not_eq_true] at hga
    simp [hga]

/-- Witness for C6: the equivalence applied at the concrete scenario input. -/
theorem completed_goals_today_spec_witness :
    ((computeStatistics scnGoal).completedGoalsToday = specCompletedGoalsToday scnGoal) ∧
    ((computeStatistics scnGoal).completedGoalsToday = 1 ∧
      (computeStatistics scnGoal).totalTimeToday = 30) :=
  completed_goals_today_spec scnGoal (by with_unfolding_all decide)

/-! ## C9 — a zero `duration` behaves like an absent one -/

theorem normDur_numTruthy (d : Option Int) : numTruthy (normDur d) = numTruthy d := by
  cases d with
  | none => rfl
  | some x =>
    by_cases hx : x = 0
    · subst hx
      rfl
    · have hne : ((some x : Option Int) == some 0) = false := by
        simp [hx]
      simp [normDur, hne, numTruthy, hx]

theorem normDur_eq_of_truthy (d : Option Int) (h : numTruthy d = true) : normDur d = d := by
  cases d with
  | none => rfl
  | some x =>
    simp only [numTruthy] at h
    have hx : x ≠ 0 := by simpa using h
    have hne : ((some x : Option Int) == some 0) = false := by
      simp [hx]
    simp [normDur, hne]

theorem filter_map_normSession (l : List ActivitySession) (p : ActivitySession → Bool)
    (hp : ∀ s, p (normSession s) = p s) :
    (l.map normSession).filter p = (l.filter p).map normSession := by
  rw [List.filter_map]
  congr 1
  apply List.filter_congr
  intro x _
  exact hp x

theorem map_numOr0_map_normSession (l : List ActivitySession) (p : ActivitySession → Bool)
    (hp : ∀ s, p s = true → numTruthy s.duration = true) :
    ((l.filter p).map normSession).map (fun s => numOr0 s.duration) =
    (l.filter p).map (fun s => numOr0 s.duration) := by
  rw [List.map_map]
  apply List.map_congr_left
  intro s hs
  have ht := hp s (List.mem_filter.mp hs).2
  show numOr0 (normDur s.duration) = numOr0 s.duration
  rw [normDur_eq_of_truthy s.duration ht]

theorem foldl_congr_mem {α β : Type} (l : List α) (f g : β → α → β) (a : β)
    (h : ∀ b x, x ∈ l → f b x = g b x) : l.foldl f a = l.foldl g a := by
  induction l generalizing a with
  | nil => rfl
  | cons x t ih =>
    rw [List.foldl_cons, List.foldl_cons, h a x (by simp)]
    exact ih _ (fun b y hy => h b y (by simp [hy]))


theorem normSession_duration (s : ActivitySession) :
    (normSession s).duration = normDur s.duration := rfl

theorem normSession_startTime (s : ActivitySession) :
    (normSession s).startTime = s.startTime := rfl

theorem normSession_activityId (s : ActivitySession) :
    (normSession s).activityId = s.activityId := rfl

theorem normSession_date (s : ActivitySession) :
    (normSession s).date = s.date := rfl

theorem any_map_normSession (l : List ActivitySession) (p : ActivitySession → Bool)
    (hp : ∀ s, p (normSession s) = p s) : (l.map normSession).any p = l.any p := by
  induction l with
  | nil => rfl
  | cons s t ih => simp [List.any_cons, hp s, ih]

/-- C9: sessions whose `duration` is `0` are treated by every aggregate
exactly like sessions with no `duration`: normalising every zero duration to
an absent one leaves the whole `Statistics` value unchanged; and in a
concrete input whose only activity yesterday is a `duration = 0` session,
the streak is 1 (yesterday does not qualify). -/
theorem duration_zero_as_missing :
    (∀ input : StatsInput,
      computeStatistics { input with sessions := input.sessions.map normSession } =
        computeStatistics input) ∧
    (computeStatistics zeroDurInput).streakDays = 1 := by
  constructor
  · intro input
    obtain ⟨acts, sess, cbs, ext, fid, n⟩ := input
    have hfs : filteredSessions (StatsInput.mk acts (sess.map normSession) cbs ext fid n) =
        (filteredSessions (StatsInput.mk acts sess cbs ext fid n)).map normSession := by
      cases fid with
      | none => rfl
      | some aid =>
        show (sess.map normSession).filter _ = _
        exact filter_map_normSession sess _ (fun s => rfl)
    have hsm : ∀ f t, sessionMinutes (StatsInput.mk acts (sess.map normSession) cbs ext fid n) f t =
        sessionMinutes (StatsInput.mk acts sess cbs ext fid n) f t := by
      intro f t
      unfold sessionMinutes
      rw [hfs, filter_map_normSession _ _ (fun s => by
          simp only [normSession_duration, normSession_startTime, normDur_numTruthy]),
        map_numOr0_map_normSession _ _ (fun s hs => by
          simp only [Bool.and_eq_true] at hs
          exact hs.1)]
    have hext : ∀ f t, externalMinutes (StatsInput.mk acts (sess.map normSession) cbs ext fid n) f t =
        externalMinutes (StatsInput.mk acts sess cbs ext fid n) f t := by
      intro f t
      rfl
    have htot : ∀ f t, getTotalMinutes (StatsInput.mk acts (sess.map normSession) cbs ext fid n) f t =
        getTotalMinutes (StatsInput.mk acts sess cbs ext fid n) f t := by
      intro f t
      unfold getTotalMinutes
      rw [hsm, hext]
    have hqual : ∀ i, streakQualifies (StatsInput.mk acts (sess.map normSession) cbs ext fid n) i =
        streakQualifies (StatsInput.mk acts sess cbs ext fid n) i := by
      intro i
      simp only [streakQualifies]
      rw [hfs, any_map_normSession _ _ (fun s => by
        simp only [normSession_duration, normSession_startTime, normDur_numTruthy])]
      rfl
    have hgm : ∀ a, goalMinutesToday (StatsInput.mk acts (sess.map normSession) cbs ext fid n) a =
        goalMinutesToday (StatsInput.mk acts sess cbs ext fid n) a := by
      intro a
      simp only [goalMinutesToday]
      rw [filter_map_normSession _ _ (fun s => by
          simp only [normSession_duration, normSession_activityId, normSession_date,
            normDur_numTruthy]),
        map_numOr0_map_normSession _ _ (fun s hs => by
          simp only [Bool.and_eq_true] at hs
          exact hs.2)]
    have hcg : completedGoalsToday (StatsInput.mk acts (sess.map normSession) cbs ext fid n) =
        completedGoalsToday (StatsInput.mk acts sess cbs ext fid n) := by
      unfold completedGoalsToday
      congr 1
      apply List.filter_congr
      intro a _
      rw [hgm]
    have hday : ∀ d, dayTotalMinutes (StatsInput.mk acts (sess.map normSession) cbs ext fid n) d =
        dayTotalMinutes (StatsInput.mk acts sess cbs ext fid n) d := by
      intro d
      simp only [dayTotalMinutes]
      rw [hfs, filter_map_normSession _ _ (fun s => by
          simp only [normSession_duration, normSession_date, normDur_numTruthy]),
        map_numOr0_map_normSession _ _ (fun s hs => by
          simp only [Bool.and_eq_true] at hs
          exact hs.2)]
      rfl
    have hdp : dailyProgress (StatsInput.mk acts (sess.map normSession) cbs ext fid n) =
        dailyProgress (StatsInput.mk acts sess cbs ext fid n) := by
      simp only [dailyProgress]
      apply List.map_congr_left
      intro k _
      rw [hday]
    have hstreak : streakDaysOf (StatsInput.mk acts (sess.map normSession) cbs ext fid n) =
        streakDaysOf (StatsInput.mk acts sess cbs ext fid n) := by
      unfold streakDaysOf
      congr 1
      funext i
      exact hqual i
    have hstats : activityStats (StatsInput.mk acts (sess.map normSession) cbs ext fid n) =
        activityStats (StatsInput.mk acts sess cbs ext fid n) := by
      simp only [activityStats]
      rw [hfs, filter_map_normSession _ _ (fun s => by
          simp only [normSession_duration, normDur_numTruthy]),
        List.foldl_map]
      rw [foldl_congr_mem _ _ (addSessionStat acts) _ (fun b s hs => by
        have ht : numTruthy s.duration = true := (List.mem_filter.mp hs).2
        unfold addSessionStat
        rw [normSession_activityId]
        rw [show (normSession s).duration = s.duration from by
          rw [normSession_duration, normDur_eq_of_truthy s.duration ht]])]
      rfl
    have hbd : activityBreakdown (StatsInput.mk acts (sess.map normSession) cbs ext fid n) =
        activityBreakdown (StatsInput.mk acts sess cbs ext fid n) := by
      unfold activityBreakdown breakdownTotalMinutes
      rw [hstats]
    simp only [computeStatistics]
    rw [hcg, hdp, hstreak, hbd, htot, htot, htot]
  · with_unfolding_all decide


/-! ## C10 — sessions of unknown activities -/

theorem mem_keys_mapSet :
    ∀ (stats : List (String × ActivityStat)) (key : String) (v : ActivityStat) (x : String),
      x ∈ (mapSet stats key v).map Prod.fst → x ∈ stats.map Prod.fst ∨ x = key := by
  intro stats
  induction stats with
  | nil =>
    intro key v x hx
    simp [mapSet] at hx
    exact Or.inr hx
  | cons p t ih =>
    intro key v x hx
    obtain ⟨k', v'⟩ := p
    by_cases h : (k' == key) = true
    · rw [show mapSet ((k', v') :: t) key v = (k', v) :: t by simp [mapSet, h]] at hx
      simp only [List.map_cons, List.mem_cons] at hx
      rcases hx with h1 | h2
      · exact Or.inl (by simp [h1])
      · exact Or.inl (by simp only [List.map_cons, List.mem_cons]; exact Or.inr h2)
    · rw [show mapSet ((k', v') :: t) key v = (k', v') :: mapSet t key v by
        simp [mapSet, h]] at hx
      simp only [List.map_cons, List.mem_cons] at hx
      rcases hx with h1 | h2
      · exact Or.inl (by simp [h1])
      · rcases ih key v x h2 with h3 | h4
        · exact Or.inl (by simp only [List.map_cons, List.mem_cons]; exact Or.inr h3)
        · exact Or.inr h4

theorem mem_keys_addSessionStat (acts : List Activity)
    (stats : List (String × ActivityStat)) (s : ActivitySession) (x : String)
    (hx : x ∈ (addSessionStat acts stats s).map Prod.fst) :
    x ∈ stats.map Prod.fst ∨ ∃ a ∈ acts, x = a.id := by
  unfold addSessionStat at hx
  cases hfind : acts.find? (fun a => a.id == s.activityId) with
  | none =>
    rw [hfind] at hx
    exact Or.inl hx
  | some a =>
    rw [hfind] at hx
    rcases mem_keys_mapSet _ _ _ x hx with h1 | h2
    · exact Or.inl h1
    · exact Or.inr ⟨a, List.mem_of_find?_eq_some hfind, h2⟩

theorem keys_foldl_subset (acts : List Activity) :
    ∀ (l : List ActivitySession) (init : List (String × ActivityStat)) (x : String),
      x ∈ ((l.foldl (addSessionStat acts) init).map Prod.fst) →
      x ∈ init.map Prod.fst ∨ ∃ a ∈ acts, x = a.id := by
  intro l
  induction l with
  | nil =>
    intro init x hx
    exact Or.inl hx
  | cons s t ih =>
    intro init x hx
    rw [List.foldl_cons] at hx
    rcases ih _ x hx with h1 | h2
    · exact mem_keys_addSessionStat acts init s x h1
    · exact Or.inr h2

theorem keys_activityStats (input : StatsInput) (x : String)
    (hx : x ∈ (activityStats input).map Prod.fst) :
    ∃ a ∈ input.activities, x = a.id := by
  simp only [activityStats] at hx
  by_cases happ : externalApplies input = true
  · rw [if_pos happ] at hx
    cases hfind : input.activities.find? (fun a => a.id == spanishActivityId) with
    | none =>
      rw [hfind] at hx
      rcases keys_foldl_subset input.activities _ [] x hx with h1 | h2
      · simp at h1
      · exact h2
    | some a =>
      rw [hfind] at hx
      rcases mem_keys_mapSet _ _ _ x hx with h1 | h2
      · rcases keys_foldl_subset input.activities _ [] x h1 with h3 | h4
        · simp at h3
        · exact h4
      · have ha : a ∈ input.activities := List.mem_of_find?_eq_some hfind
        have hid : a.id = spanishActivityId := by
          have hp := List.find?_some hfind
          simpa using hp
        have hid' : a.id = spanishActivityId := hid
        exact ⟨a, ha, by rw [h2, hid']⟩
  · rw [Bool.not_eq_true] at happ
    rw [happ] at hx
    simp only [Bool.false_eq_true, if_false] at hx
    rcases keys_foldl_subset input.activities _ [] x hx with h1 | h2
    · simp at h1
    · exact h2

/-- C10: the window totals, the streak and the daily-progress series never
consult the activity list (so a completed session with an unknown
`activityId` still counts toward them), every breakdown entry's id is the id
of some activity record (so an orphan session produces no breakdown entry),
and on the concrete orphan input the breakdown minutes sum to strictly less
than the open-ended month total. -/
theorem orphan_sessions (input : StatsInput) :
    (∀ acts : List Activity,
      (computeStatistics { input with activities := acts }).totalTimeToday =
          (computeStatistics input).totalTimeToday ∧
        (computeStatistics { input with activities := acts }).totalTimeWeek =
          (computeStatistics input).totalTimeWeek ∧
        (computeStatistics { input with activities := acts }).totalTimeMonth =
          (computeStatistics input).totalTimeMonth ∧
        (computeStatistics { input with activities := acts }).streakDays =
          (computeStatistics input).streakDays ∧
        (computeStatistics { input with activities := acts }).dailyProgress =
          (computeStatistics input).dailyProgress) ∧
    (∀ e ∈ (computeStatistics input).activityBreakdown,
      e.activityId ∈ input.activities.map (fun a => a.id)) ∧
    ((((computeStatistics orphanInput).activityBreakdown.map
        (fun e => e.totalMinutes)).sum <
          (computeStatistics orphanInput).totalTimeMonth) ∧
      (computeStatistics orphanInput).totalTimeToday = 10 ∧
      (computeStatistics orphanInput).streakDays = 1) := by
  refine ⟨?_, ?_, ?_⟩
  · intro acts
    obtain ⟨acts0, sess, cbs, ext, fid, n⟩ := input
    exact ⟨rfl, rfl, rfl, rfl, rfl⟩
  · intro e he
    have he' : e ∈ activityBreakdown input := he
    rw [activityBreakdown] at he'
    simp only [List.mem_map] at he'
    obtain ⟨p, hp, hpe⟩ := he'
    have hid : e.activityId = p.1 := by rw [← hpe]
    have hkey : p.1 ∈ (activityStats input).map Prod.fst :=
      List.mem_map.mpr ⟨p, hp, rfl⟩
    obtain ⟨a, ha, hxa⟩ := keys_activityStats input p.1 hkey
    rw [hid, hxa]
    exact List.mem_map.mpr ⟨a, ha, rfl⟩
  · refine ⟨?_, ?_, ?_⟩
    · with_unfolding_all decide
    · with_unfolding_all decide
    · with_unfolding_all decide

/-- Witness for C10: applied at the concrete scenario input, whose breakdown
entry for activity `A` indeed names a known activity id. -/
theorem orphan_sessions_witness :
    ({ activityId := "A", activityName := "Act A", totalMinutes := 30,
        percentage := 100 } : BreakdownEntry).activityId ∈
      scnGoal.activities.map (fun a => a.id) :=
  (orphan_sessions scnGoal).2.1
    { activityId := "A", activityName := "Act A", totalMinutes := 30, percentage := 100 }
    (by with_unfolding_all decide)

end Tracks
